import Mathlib

/-!
Verification of the scenario-sharing core of parkview-cma-react.

The code under verification is the Supabase migration that defines the
`react_scenario_shares` audit table, its row-level-security policies, and
the two PL/pgSQL functions `react_search_users_by_email` and
`react_share_scenario`.  Database state is embedded as lists of rows;
the PL/pgSQL function bodies are translated statement by statement, with
`RAISE EXCEPTION` modelled as an error result returning the unchanged
state (a PostgreSQL function body is atomic in its enclosing transaction,
so an uncaught exception rolls back every write the body performed).
SQL TEXT values are Lean strings; `lower`, `trim` and `LIKE` are modelled
structurally over the underlying character lists.
-/

deriving instance DecidableEq for Except

namespace ParkviewCMA

/-- SQL `lower`: lower-cases every character (basic latin, as in the ASCII
range that the stored emails use). -/
def sqlLower (s : String) : String :=
  ⟨s.data.map Char.toLower⟩

/-- Drop leading space characters, modelling one side of SQL `trim`
(PostgreSQL `trim` with no arguments strips the space character). -/
def dropSpaces : List Char → List Char
  | [] => []
  | c :: cs => if c = ' ' then dropSpaces cs else c :: cs

/-- SQL `trim`: strip leading and trailing spaces. -/
def sqlTrim (s : String) : String :=
  ⟨((dropSpaces s.data.reverse).reverse |> dropSpaces)⟩

/-- The normalisation `lower(trim(x))` both PL/pgSQL functions apply to
caller-supplied identifier text. -/
def sqlNormalize (s : String) : String :=
  sqlLower (sqlTrim s)

/-- SQL `LIKE` matching over character lists: `%` matches any sequence,
`_` matches any single character, backslash escapes the next pattern
character; every other character matches itself literally. -/
def likeMatch : List Char → List Char → Bool
  | [], s => s.isEmpty
  | '%' :: ps, s => s.tails.any (fun t => likeMatch ps t)
  | '_' :: _, [] => false
  | '_' :: ps, _ :: cs => likeMatch ps cs
  | '\\' :: p2 :: ps, c :: cs => c == p2 && likeMatch ps cs
  | '\\' :: _, _ => false
  | _ :: _, [] => false
  | p :: ps, c :: cs => c == p && likeMatch ps cs

/-- A row of `auth.users` (managed by Supabase; `email` is nullable). -/
structure AuthUser where
  id : Nat
  email : Option String
deriving DecidableEq

/-- A row of `react_scenarios`, with the sharing metadata columns added by
the migration. -/
structure Scenario where
  id : Nat
  user_id : Nat
  name : String
  description : String
  overrides : String
  base_currency : String
  is_shared_copy : Bool
  shared_from_scenario_id : Option Nat
  shared_by_user_id : Option Nat
  shared_by_email : Option String
deriving DecidableEq

/-- A row of `react_scenario_shares` (the audit table). -/
structure ShareRecord where
  id : Nat
  source_scenario_id : Nat
  shared_by_user_id : Nat
  recipient_user_id : Nat
  recipient_email : String
  created_at : Nat
deriving DecidableEq

/-- One row of the result table of `react_search_users_by_email`. -/
structure SearchRow where
  user_id : Nat
  email : String
deriving DecidableEq

/-- The result row of `react_share_scenario`. -/
structure ShareResult where
  shared_scenario_id : Nat
  shared_scenario_name : String
  recipient_user_id : Nat
  recipient_email : String
deriving DecidableEq

/-- The error taxonomy: one constructor per distinct `RAISE EXCEPTION`
message in the migration, plus the row-level-security denial. -/
inductive ShareError where
  | AuthenticationRequired
  | NotFoundOrNotOwned
  | RecipientNotFound
  | SelfShareForbidden
  | DuplicateShare
  | PermissionDenied
deriving DecidableEq

/-- The database state: the three tables the migration touches, counters
standing in for `gen_random_uuid()` primary-key generation, and the clock
standing in for `NOW()`. -/
structure DBState where
  users : List AuthUser
  scenarios : List Scenario
  shares : List ShareRecord
  nextScenarioId : Nat
  nextShareId : Nat
  now : Nat
deriving DecidableEq

/-- The recipient query of `react_share_scenario`:
`SELECT u.id, u.email FROM auth.users u
 WHERE lower(u.email) = lower(trim(recipient_email_input))`.
A NULL email compares as unknown in SQL, so such rows never match. -/
def recipientLookup (normalizedInput : String) (users : List AuthUser) :
    List (Nat × String) :=
  users.filterMap (fun u =>
    match u.email with
    | none => none
    | some e => if sqlLower e = normalizedInput then some (u.id, e) else none)

/-- The sender-email query of `react_share_scenario`:
`SELECT u.email FROM auth.users u WHERE u.id = sender_id LIMIT 1`;
yields NULL when the row is absent or its email is NULL. -/
def senderEmailLookup (users : List AuthUser) (sender_id : Nat) : Option String :=
  (users.find? (fun u => u.id == sender_id)).bind (fun u => u.email)

/-- Ordering used to model `ORDER BY u.email` on result rows. -/
def searchRowLe (a b : SearchRow) : Prop :=
  a.email ≤ b.email

instance : DecidableRel searchRowLe :=
  fun a b => inferInstanceAs (Decidable (a.email ≤ b.email))

instance : IsTotal SearchRow searchRowLe :=
  ⟨fun a b => le_total a.email b.email⟩

instance : IsTrans SearchRow searchRowLe :=
  ⟨fun _ _ _ hab hbc => le_trans hab hbc⟩

/-- `react_search_users_by_email(query_text)`: requires an authenticated
caller (`auth.uid()` modelled as `uid`), normalises the query, returns the
empty table below two characters, and otherwise selects users whose
lower-cased email matches `normalized_query || PERCENT` as a LIKE pattern,
excluding the caller, ordered by email, limited to 10 rows. -/
def react_search_users_by_email (uid : Option Nat) (query_text : Option String)
    (users : List AuthUser) : Except ShareError (List SearchRow) :=
  match uid with
  | none => .error .AuthenticationRequired
  | some me =>
    let normalized_query := sqlNormalize (query_text.getD "")
    if normalized_query.length < 2 then .ok []
    else
      let rows := users.filterMap (fun u =>
        match u.email with
        | none => none
        | some e =>
          if likeMatch (normalized_query.data ++ ['%']) (sqlLower e).data
              && u.id != me
          then some { user_id := u.id, email := e }
          else none)
      .ok ((List.insertionSort searchRowLe rows).take 10)

/-- `react_share_scenario(source_scenario_id, recipient_email_input)`,
translated statement by statement; every `RAISE EXCEPTION` returns the
starting state unchanged (function-body atomicity). -/
def react_share_scenario (uid : Option Nat) (source_scenario_id : Nat)
    (recipient_email_input : String) (st : DBState) :
    Except ShareError ShareResult × DBState :=
  match uid with
  | none => (.error .AuthenticationRequired, st)
  | some sender_id =>
    match st.scenarios.find? (fun s =>
        s.id == source_scenario_id && s.user_id == sender_id) with
    | none => (.error .NotFoundOrNotOwned, st)
    | some source_record =>
      match (recipientLookup (sqlNormalize recipient_email_input) st.users).head? with
      | none => (.error .RecipientNotFound, st)
      | some recip =>
        let recipient_id := recip.1
        let recipient_email := recip.2
        if recipient_id = sender_id then (.error .SelfShareForbidden, st)
        else
          let sender_email := senderEmailLookup st.users sender_id
          if st.shares.any (fun rs =>
              rs.source_scenario_id == source_record.id &&
              rs.shared_by_user_id == sender_id &&
              rs.recipient_user_id == recipient_id)
          then (.error .DuplicateShare, st)
          else
            let inserted_id := st.nextScenarioId
            let copyRow : Scenario :=
              { id := inserted_id
                user_id := recipient_id
                name := source_record.name
                description := source_record.description
                overrides := source_record.overrides
                base_currency := source_record.base_currency
                is_shared_copy := true
                shared_from_scenario_id := some source_record.id
                shared_by_user_id := some sender_id
                shared_by_email := sender_email }
            let shareRow : ShareRecord :=
              { id := st.nextShareId
                source_scenario_id := source_record.id
                shared_by_user_id := sender_id
                recipient_user_id := recipient_id
                recipient_email := recipient_email
                created_at := st.now }
            (.ok { shared_scenario_id := inserted_id
                   shared_scenario_name := source_record.name
                   recipient_user_id := recipient_id
                   recipient_email := recipient_email },
             { st with
                scenarios := st.scenarios ++ [copyRow]
                shares := st.shares ++ [shareRow]
                nextScenarioId := st.nextScenarioId + 1
                nextShareId := st.nextShareId + 1 })

/-- RLS policy (SELECT): a share row is visible to its sender or its
recipient; `auth.uid() = x` is unknown (hence false) for a NULL uid. -/
def share_select_policy (uid : Option Nat) (r : ShareRecord) : Bool :=
  uid == some r.shared_by_user_id || uid == some r.recipient_user_id

/-- RLS policy (INSERT): `WITH CHECK (FALSE)`. -/
def share_insert_check (uid : Option Nat) (r : ShareRecord) : Bool :=
  false

/-- RLS policy (UPDATE): `USING (FALSE)`. -/
def share_update_using (uid : Option Nat) (r : ShareRecord) : Bool :=
  false

/-- RLS policy (DELETE): `USING (FALSE)`. -/
def share_delete_using (uid : Option Nat) (r : ShareRecord) : Bool :=
  false

/-- A direct client write request against `react_scenario_shares`. -/
inductive ClientWrite where
  | insert (r : ShareRecord)
  | update (oldRow newRow : ShareRecord)
  | delete (r : ShareRecord)

/-- A direct client write against `react_scenario_shares`, gated by the
row-level-security policies of the migration (the acting role is subject
to RLS; only the SECURITY DEFINER function body bypasses them). -/
def clientWriteShares (uid : Option Nat) (op : ClientWrite) (st : DBState) :
    Except ShareError DBState :=
  match op with
  | .insert r =>
    if share_insert_check uid r
    then .ok { st with shares := st.shares ++ [r] }
    else .error .PermissionDenied
  | .update oldRow newRow =>
    if share_update_using uid oldRow
    then .ok { st with shares := st.shares.map (fun r => if r = oldRow then newRow else r) }
    else .error .PermissionDenied
  | .delete r =>
    if share_delete_using uid r
    then .ok { st with shares := st.shares.filter (fun x => x ≠ r) }
    else .error .PermissionDenied

/-- Modelled from the spec: the normal scenario-editing path ("mutated only
by its current owner through normal scenario-editing operations") lies
outside the shown migration; per the spec it rewrites fields of the one
identified scenario row.  We model an edit of the override payload. -/
def updateScenarioOverrides (scenario_id : Nat) (newOverrides : String)
    (st : DBState) : DBState :=
  { st with
      scenarios := st.scenarios.map (fun s =>
        if s.id = scenario_id then { s with overrides := newOverrides } else s) }

/-! Concrete fixtures used to instantiate the theorems below. -/

def alice : AuthUser := ⟨1, some "alice@x.com"⟩

def bob : AuthUser := ⟨2, some "bob@x.com"⟩

def bobUpper : AuthUser := ⟨2, some "Bob@x.com"⟩

def bobAlt : AuthUser := ⟨3, some "bob@X.com"⟩

def prefixUser : AuthUser := ⟨5, some "ab@x.com"⟩

def baseScenario : Scenario :=
  ⟨10, 1, "Base Case 2025", "desc", "overrides-v1", "USD", false, none, none, none⟩

def baseState : DBState := ⟨[alice, bob], [baseScenario], [], 100, 200, 7⟩

def multiMatchState : DBState := ⟨[alice, bobUpper, bobAlt], [baseScenario], [], 100, 200, 7⟩

def noRecipientState : DBState := ⟨[alice], [baseScenario], [], 100, 200, 7⟩

def emptyScenarioState : DBState := ⟨[alice, bob], [], [], 100, 200, 7⟩

def otherOwnedState : DBState :=
  ⟨[alice, bob], [⟨10, 2, "Base Case 2025", "desc", "overrides-v1", "USD",
    false, none, none, none⟩], [], 100, 200, 7⟩

/-! Helper lemmas about the embedded operations. -/

/-- Anatomy of a successful `react_share_scenario` run: the branch
conditions that were passed and the exact output state. -/
theorem share_ok_elim {a sid : Nat} {inp : String} {st : DBState} {r : ShareResult}
    (h : (react_share_scenario (some a) sid inp st).1 = .ok r) :
    ∃ src rid remail,
      st.scenarios.find? (fun s => s.id == sid && s.user_id == a) = some src ∧
      src.id = sid ∧ src.user_id = a ∧
      (recipientLookup (sqlNormalize inp) st.users).head? = some (rid, remail) ∧
      rid ≠ a ∧
      st.shares.any (fun rs => rs.source_scenario_id == src.id &&
        rs.shared_by_user_id == a && rs.recipient_user_id == rid) = false ∧
      r = ⟨st.nextScenarioId, src.name, rid, remail⟩ ∧
      react_share_scenario (some a) sid inp st =
        (.ok r,
         { st with
            scenarios := st.scenarios ++
              [⟨st.nextScenarioId, rid, src.name, src.description, src.overrides,
                src.base_currency, true, some src.id, some a,
                senderEmailLookup st.users a⟩]
            shares := st.shares ++ [⟨st.nextShareId, src.id, a, rid, remail, st.now⟩]
            nextScenarioId := st.nextScenarioId + 1
            nextShareId := st.nextShareId + 1 }) := by
  simp only [react_share_scenario] at h
  split at h
  next => simp at h
  next src hfind =>
    have hpred := List.find?_some hfind
    simp only [Bool.and_eq_true, beq_iff_eq] at hpred
    split at h
    next => simp at h
    next pr hrec =>
      split at h
      next => simp at h
      next hself =>
        split at h
        next => simp at h
        next hdup =>
          simp only [Prod.fst] at h
          injection h with h2
          refine ⟨src, pr.1, pr.2, hfind, hpred.1, hpred.2, ?_, hself,
            Bool.eq_false_iff.mpr hdup, h2.symm, ?_⟩
          · rw [hrec]
          simp only [react_share_scenario]
          rw [hfind]
          simp only []
          rw [hrec]
          simp only []
          rw [if_neg hself]
          rw [Bool.eq_false_iff.mpr hdup]
          simp [h2]


/-- C3: every direct client insert, update, or delete on the
`react_scenario_shares` audit table is denied with PermissionDenied, for
every caller and every row: the INSERT policy is `WITH CHECK (FALSE)` and
the UPDATE and DELETE policies are `USING (FALSE)`, so the state-changing
branch of a direct write is unreachable; the table is only ever written by
the SECURITY DEFINER body of `react_share_scenario`. -/
theorem C3_direct_writes_denied (uid : Option Nat) (op : ClientWrite) (st : DBState) :
    clientWriteShares uid op st = .error .PermissionDenied := by
  cases op <;> rfl

/-- C2: `react_share_scenario` is atomic: every run either succeeds and
appends exactly one new scenario row (a shared copy) and exactly one new
audit row, or fails with an error and returns the starting state
unchanged; no run produces the copy without the audit row or vice
versa. -/
theorem C2_share_atomic (uid : Option Nat) (sid : Nat) (inp : String) (st : DBState) :
    (∃ r c rec, (react_share_scenario uid sid inp st).1 = Except.ok r ∧
      c.is_shared_copy = true ∧
      (react_share_scenario uid sid inp st).2 =
        { st with
            scenarios := st.scenarios ++ [c]
            shares := st.shares ++ [rec]
            nextScenarioId := st.nextScenarioId + 1
            nextShareId := st.nextShareId + 1 }) ∨
    (∃ e, react_share_scenario uid sid inp st = (Except.error e, st)) := by
  cases uid with
  | none => right; exact ⟨_, rfl⟩
  | some a =>
    simp only [react_share_scenario]
    split
    · right; exact ⟨_, rfl⟩
    · split
      · right; exact ⟨_, rfl⟩
      · split
        · right; exact ⟨_, rfl⟩
        · split
          · right; exact ⟨_, rfl⟩
          · left; exact ⟨_, _, _, rfl, rfl, rfl⟩

/-- C4: when the source scenario is absent, and when it exists but is
owned by someone else, `react_share_scenario` fails with the same
NotFoundOrNotOwned error and leaves the state unchanged, so the two
situations are indistinguishable to the caller. -/
theorem C4_not_found_indistinguishable (a sid : Nat) (inp : String) (st1 st2 : DBState)
    (h1 : ∀ s ∈ st1.scenarios, s.id ≠ sid)
    (h2 : ∀ s ∈ st2.scenarios, s.id = sid → s.user_id ≠ a) :
    react_share_scenario (some a) sid inp st1 = (Except.error .NotFoundOrNotOwned, st1) ∧
    react_share_scenario (some a) sid inp st2 = (Except.error .NotFoundOrNotOwned, st2) := by
  constructor
  · have hf : st1.scenarios.find? (fun s => s.id == sid && s.user_id == a) = none := by
      rw [List.find?_eq_none]
      intro s hs
      simp [h1 s hs]
    simp only [react_share_scenario]
    rw [hf]
  · have hf : st2.scenarios.find? (fun s => s.id == sid && s.user_id == a) = none := by
      rw [List.find?_eq_none]
      intro s hs
      simp only [Bool.and_eq_true, beq_iff_eq, not_and]
      exact h2 s hs
    simp only [react_share_scenario]
    rw [hf]

/-- Witness for C4: scenario 10 is absent from one state and owned by
user 2 in the other; caller 1 gets NotFoundOrNotOwned either way. -/
theorem C4_not_found_indistinguishable_witness :
    react_share_scenario (some 1) 10 "bob@x.com" emptyScenarioState =
      (Except.error .NotFoundOrNotOwned, emptyScenarioState) ∧
    react_share_scenario (some 1) 10 "bob@x.com" otherOwnedState =
      (Except.error .NotFoundOrNotOwned, otherOwnedState) :=
  C4_not_found_indistinguishable 1 10 "bob@x.com" emptyScenarioState otherOwnedState
    (by decide) (by decide)

/-- C1: once a share of scenario `sid` by sender `a` to the resolved
recipient has succeeded, repeating the identical call on the resulting
state fails with DuplicateShare and leaves the state unchanged, so at most
one audit row for the (source, sender, recipient) triple ever exists. -/
theorem C1_duplicate_share_rejected (a sid : Nat) (inp : String) (st : DBState)
    (r : ShareResult) (h : (react_share_scenario (some a) sid inp st).1 = Except.ok r) :
    react_share_scenario (some a) sid inp ((react_share_scenario (some a) sid inp st).2) =
      (Except.error .DuplicateShare, (react_share_scenario (some a) sid inp st).2) := by
  obtain ⟨src, rid, remail, hfind, hsid, huid, hrec, hself, hdup, hr, hrun⟩ := share_ok_elim h
  rw [hrun]
  dsimp only
  simp only [react_share_scenario]
  rw [List.find?_append, hfind]
  dsimp only [Option.or]
  rw [hrec]
  dsimp only
  rw [if_neg hself]
  rw [List.any_append, hdup]
  simp

/-- Witness for C1: user 1 shares scenario 10 with bob; the identical
second call fails with DuplicateShare and changes nothing. -/
theorem C1_duplicate_share_rejected_witness :
    (react_share_scenario (some 1) 10 "bob@x.com" baseState).1 =
      Except.ok ⟨100, "Base Case 2025", 2, "bob@x.com"⟩ ∧
    react_share_scenario (some 1) 10 "bob@x.com"
        ((react_share_scenario (some 1) 10 "bob@x.com" baseState).2) =
      (Except.error .DuplicateShare,
        (react_share_scenario (some 1) 10 "bob@x.com" baseState).2) :=
  ⟨by decide, C1_duplicate_share_rejected 1 10 "bob@x.com" baseState
    ⟨100, "Base Case 2025", 2, "bob@x.com"⟩ (by decide)⟩

/-- C5: on success the inserted scenario is owned by the resolved
recipient and copies name, description, override payload and base
currency verbatim from the source row, with is_shared_copy = true,
the source id, the sender id, and the sender's email snapshot. -/
theorem C5_copy_fields (a sid : Nat) (inp : String) (st : DBState) (r : ShareResult)
    (h : (react_share_scenario (some a) sid inp st).1 = Except.ok r) :
    ∃ src, st.scenarios.find? (fun s => s.id == sid && s.user_id == a) = some src ∧
      r.shared_scenario_name = src.name ∧
      (react_share_scenario (some a) sid inp st).2.scenarios =
        st.scenarios ++
          [{ id := r.shared_scenario_id
             user_id := r.recipient_user_id
             name := src.name
             description := src.description
             overrides := src.overrides
             base_currency := src.base_currency
             is_shared_copy := true
             shared_from_scenario_id := some src.id
             shared_by_user_id := some a
             shared_by_email := senderEmailLookup st.users a }] := by
  obtain ⟨src, rid, remail, hfind, hsid, huid, hrec, hself, hdup, hr, hrun⟩ := share_ok_elim h
  refine ⟨src, hfind, ?_, ?_⟩
  · rw [hr]
  · rw [hrun, hr]

/-- Witness for C5. -/
theorem C5_copy_fields_witness :
    ∃ src, baseState.scenarios.find? (fun s => s.id == 10 && s.user_id == 1) = some src ∧
      (ShareResult.mk 100 "Base Case 2025" 2 "bob@x.com").shared_scenario_name = src.name ∧
      (react_share_scenario (some 1) 10 "bob@x.com" baseState).2.scenarios =
        baseState.scenarios ++
          [{ id := (ShareResult.mk 100 "Base Case 2025" 2 "bob@x.com").shared_scenario_id
             user_id := (ShareResult.mk 100 "Base Case 2025" 2 "bob@x.com").recipient_user_id
             name := src.name
             description := src.description
             overrides := src.overrides
             base_currency := src.base_currency
             is_shared_copy := true
             shared_from_scenario_id := some src.id
             shared_by_user_id := some 1
             shared_by_email := senderEmailLookup baseState.users 1 }] :=
  C5_copy_fields 1 10 "bob@x.com" baseState
    (ShareResult.mk 100 "Base Case 2025" 2 "bob@x.com") (by decide)

/-- C6: snapshot independence: a successful share appends a copy row, and
editing the source scenario's override payload afterwards (modelled from
the spec as rewriting that one scenario row) leaves the copy row entirely
unchanged. -/
theorem C6_snapshot_independence (a sid : Nat) (inp newOverrides : String) (st : DBState)
    (r : ShareResult)
    (hfresh : ∀ s ∈ st.scenarios, s.id < st.nextScenarioId)
    (h : (react_share_scenario (some a) sid inp st).1 = Except.ok r) :
    ∃ c, (react_share_scenario (some a) sid inp st).2.scenarios = st.scenarios ++ [c] ∧
      c.is_shared_copy = true ∧
      (updateScenarioOverrides sid newOverrides
          ((react_share_scenario (some a) sid inp st).2)).scenarios =
        (updateScenarioOverrides sid newOverrides st).scenarios ++ [c] := by
  obtain ⟨src, rid, remail, hfind, hsid, huid, hrec, hself, hdup, hr, hrun⟩ := share_ok_elim h
  have hmem := List.mem_of_find?_eq_some hfind
  have hlt : src.id < st.nextScenarioId := hfresh src hmem
  have hneq : ¬ (st.nextScenarioId = sid) := by
    rw [← hsid]
    omega
  rw [hrun]
  dsimp only
  refine ⟨_, rfl, rfl, ?_⟩
  unfold updateScenarioOverrides
  dsimp only
  rw [List.map_append]
  simp only [List.map_cons, List.map_nil, if_neg hneq]

/-- Witness for C6. -/
theorem C6_snapshot_independence_witness :
    ∃ c, (react_share_scenario (some 1) 10 "bob@x.com" baseState).2.scenarios =
        baseState.scenarios ++ [c] ∧
      c.is_shared_copy = true ∧
      (updateScenarioOverrides 10 "overrides-v2"
          ((react_share_scenario (some 1) 10 "bob@x.com" baseState).2)).scenarios =
        (updateScenarioOverrides 10 "overrides-v2" baseState).scenarios ++ [c] :=
  C6_snapshot_independence 1 10 "bob@x.com" "overrides-v2" baseState
    ⟨100, "Base Case 2025", 2, "bob@x.com"⟩ (by decide) (by decide)

/-- Two inputs with the same trim-and-lowercase normalisation drive
`react_share_scenario` identically: the input is only ever used through
`lower(trim(recipient_email_input))`. -/
theorem share_input_congr (uid : Option Nat) (sid : Nat) (i1 i2 : String) (st : DBState)
    (hnorm : sqlNormalize i1 = sqlNormalize i2) :
    react_share_scenario uid sid i1 st = react_share_scenario uid sid i2 st := by
  unfold react_share_scenario
  rw [hnorm]

/-- C10: on success, the identifier returned to the caller and stored in
the audit row is the matched user's registered email exactly as stored,
and two inputs that normalise identically produce identical runs. -/
theorem C10_identifier_canonical (a sid : Nat) (i1 i2 : String) (st : DBState)
    (r : ShareResult)
    (hnorm : sqlNormalize i1 = sqlNormalize i2)
    (h : (react_share_scenario (some a) sid i1 st).1 = Except.ok r) :
    (∃ u ∈ st.users, u.id = r.recipient_user_id ∧ u.email = some r.recipient_email) ∧
    (∃ src, st.scenarios.find? (fun s => s.id == sid && s.user_id == a) = some src ∧
      (react_share_scenario (some a) sid i1 st).2.shares =
        st.shares ++ [⟨st.nextShareId, src.id, a, r.recipient_user_id,
          r.recipient_email, st.now⟩]) ∧
    react_share_scenario (some a) sid i2 st = react_share_scenario (some a) sid i1 st := by
  obtain ⟨src, rid, remail, hfind, hsid, huid, hrec, hself, hdup, hr, hrun⟩ := share_ok_elim h
  refine ⟨?_, ⟨src, hfind, ?_⟩, share_input_congr _ _ _ _ _ hnorm.symm⟩
  · have hl : (rid, remail) ∈ recipientLookup (sqlNormalize i1) st.users := by
      obtain ⟨ys, hys⟩ := List.head?_eq_some_iff.mp hrec
      rw [hys]
      exact List.mem_cons_self _ _
    simp only [recipientLookup, List.mem_filterMap] at hl
    obtain ⟨u, hu, hmatch⟩ := hl
    rcases he : u.email with _ | e
    · rw [he] at hmatch
      simp at hmatch
    · rw [he] at hmatch
      split at hmatch
      · simp at hmatch
      · rename_i e2 heq
        injection heq with hee
        split at hmatch
        · injection hmatch with hpair
          have hid : u.id = rid := congrArg Prod.fst hpair
          have hremail : e2 = remail := congrArg Prod.snd hpair
          rw [hr]
          refine ⟨u, hu, hid, ?_⟩
          rw [he, hee, hremail]
        · simp at hmatch
  · rw [hrun, hr]

/-- Witness for C10. -/
theorem C10_identifier_canonical_witness :
    (∃ u ∈ baseState.users,
      u.id = (ShareResult.mk 100 "Base Case 2025" 2 "bob@x.com").recipient_user_id ∧
      u.email = some (ShareResult.mk 100 "Base Case 2025" 2 "bob@x.com").recipient_email) ∧
    (∃ src, baseState.scenarios.find? (fun s => s.id == 10 && s.user_id == 1) = some src ∧
      (react_share_scenario (some 1) 10 " Bob@X.COM " baseState).2.shares =
        baseState.shares ++ [⟨baseState.nextShareId, src.id, 1,
          (ShareResult.mk 100 "Base Case 2025" 2 "bob@x.com").recipient_user_id,
          (ShareResult.mk 100 "Base Case 2025" 2 "bob@x.com").recipient_email,
          baseState.now⟩]) ∧
    react_share_scenario (some 1) 10 "bob@x.com" baseState =
      react_share_scenario (some 1) 10 " Bob@X.COM " baseState :=
  C10_identifier_canonical 1 10 " Bob@X.COM " "bob@x.com" baseState
    (ShareResult.mk 100 "Base Case 2025" 2 "bob@x.com") (by decide) (by decide)

/-- Counterexample for C7: two registered identities normalise to the same
email, yet `react_share_scenario` does not reject the ambiguity: the call
proceeds and succeeds with the first match (the SQL LIMIT 1). -/
theorem C7_counterexample :
    (recipientLookup (sqlNormalize "bob@x.com") multiMatchState.users).length = 2 ∧
    (react_share_scenario (some 1) 10 "bob@x.com" multiMatchState).1 =
      Except.ok ⟨100, "Base Case 2025", 2, "Bob@x.com"⟩ := by
  constructor <;> decide

/-- C7 (amended): once the source-ownership check has passed, the call
fails with RecipientNotFound exactly when no registered identifier
matches the trim-and-lowercased input; when one or more match it proceeds
with the first matching identity instead of rejecting ambiguity. -/
theorem C7_recipient_resolution (a sid : Nat) (inp : String) (st : DBState) (src : Scenario)
    (hsrc : st.scenarios.find? (fun s => s.id == sid && s.user_id == a) = some src) :
    (react_share_scenario (some a) sid inp st).1 = Except.error .RecipientNotFound ↔
      recipientLookup (sqlNormalize inp) st.users = [] := by
  simp only [react_share_scenario]
  rw [hsrc]
  dsimp only
  rcases hh : (recipientLookup (sqlNormalize inp) st.users).head? with _ | pr
  · have hnil : recipientLookup (sqlNormalize inp) st.users = [] :=
      List.head?_eq_none_iff.mp hh
    simp [hnil]
  · dsimp only
    constructor
    · intro hcon
      exfalso
      split at hcon
      · simp at hcon
      · split at hcon
        · simp at hcon
        · simp at hcon
    · intro hnil
      rw [hnil] at hh
      simp at hh

/-- Witness for C7: no registered identifier matches, so the call fails
with RecipientNotFound. -/
theorem C7_recipient_resolution_witness :
    (react_share_scenario (some 1) 10 "zed@x.com" noRecipientState).1 =
      Except.error .RecipientNotFound ↔
    recipientLookup (sqlNormalize "zed@x.com") noRecipientState.users = [] :=
  C7_recipient_resolution 1 10 "zed@x.com" noRecipientState baseScenario (by decide)

/-- Every list of suffixes contains the empty suffix, so a bare percent
pattern accepts every string. -/
theorem tails_any_isEmpty (s : List Char) : s.tails.any (fun t => t.isEmpty) = true := by
  induction s with
  | nil => rfl
  | cons c cs ih => simp [ih]

/-- Unfolding: a leading percent wildcard tries every suffix. -/
theorem likeMatch_percent (ps : List Char) (s : List Char) :
    likeMatch ('%' :: ps) s = s.tails.any (fun t => likeMatch ps t) := by
  simp only [likeMatch]

/-- Unfolding: a literal pattern character never matches the empty
string. -/
theorem likeMatch_lit_nil (p : Char) (ps : List Char)
    (h1 : p ≠ '%') (h2 : p ≠ '_') (h3 : p ≠ '\\') :
    likeMatch (p :: ps) [] = false := by
  simp only [likeMatch, h1, h2, h3]

/-- Unfolding: a literal pattern character matches itself and continues. -/
theorem likeMatch_lit_cons (p : Char) (ps : List Char) (c : Char) (cs : List Char)
    (h1 : p ≠ '%') (h2 : p ≠ '_') (h3 : p ≠ '\\') :
    likeMatch (p :: ps) (c :: cs) = (c == p && likeMatch ps cs) :=
  likeMatch.eq_8 p ps c cs h1 h2 (fun _ _ hp _ => h3 hp) h3

/-- Over a needle free of LIKE metacharacters, matching against
`needle ++ [percent]` is exactly literal prefix matching. -/
theorem likeMatch_no_meta (q : List Char)
    (hq : ∀ c ∈ q, c ≠ '%' ∧ c ≠ '_' ∧ c ≠ '\\') (s : List Char) :
    likeMatch (q ++ ['%']) s = q.isPrefixOf s := by
  induction q generalizing s with
  | nil =>
    rw [List.nil_append, likeMatch_percent]
    simp only [likeMatch]
    rw [tails_any_isEmpty]
    exact List.isPrefixOf_nil_left.symm
  | cons c q ih =>
    obtain ⟨h1, h2, h3⟩ := hq c (List.mem_cons_self c q)
    have hq2 : ∀ x ∈ q, x ≠ '%' ∧ x ≠ '_' ∧ x ≠ '\\' :=
      fun x hx => hq x (List.mem_cons_of_mem _ hx)
    cases s with
    | nil =>
      rw [List.cons_append, likeMatch_lit_nil c (q ++ ['%']) h1 h2 h3]
      rfl
    | cons d s2 =>
      rw [List.cons_append, likeMatch_lit_cons c (q ++ ['%']) d s2 h1 h2 h3,
        ih hq2 s2]
      show (d == c && q.isPrefixOf s2) = (c :: q).isPrefixOf (d :: s2)
      rw [List.isPrefixOf_cons₂, Bool.beq_comm]

/-- Counterexample for C8: the caller-supplied query is used as a SQL LIKE
pattern, so a query containing a percent wildcard admits identifiers that
do not start with the normalised query literally. -/
theorem C8_counterexample :
    react_search_users_by_email (some 99) (some "%b") [prefixUser] =
      Except.ok [⟨5, "ab@x.com"⟩] ∧
    (sqlNormalize "%b").data.isPrefixOf (sqlLower "ab@x.com").data = false := by
  constructor <;> decide

/-- C8 (amended): a registered identifier is included only if its
lower-cased value matches the normalised query followed by a percent as a
SQL LIKE pattern; whenever the normalised query is free of LIKE
metacharacters (percent, underscore, backslash), this is exactly literal
prefix matching. -/
theorem C8_prefix_match (me : Nat) (q : Option String) (users : List AuthUser)
    (out : List SearchRow) (row : SearchRow)
    (hmeta : ∀ c ∈ (sqlNormalize (q.getD "")).data, c ≠ '%' ∧ c ≠ '_' ∧ c ≠ '\\')
    (hok : react_search_users_by_email (some me) q users = Except.ok out)
    (hmem : row ∈ out) :
    (sqlNormalize (q.getD "")).data.isPrefixOf (sqlLower row.email).data = true := by
  simp only [react_search_users_by_email] at hok
  split at hok
  · injection hok with hout
    rw [← hout] at hmem
    simp at hmem
  · injection hok with hout
    rw [← hout] at hmem
    have h1 := List.mem_of_mem_take hmem
    rw [List.mem_insertionSort] at h1
    simp only [List.mem_filterMap] at h1
    obtain ⟨u, hu, hmatch⟩ := h1
    rcases he : u.email with _ | e
    · rw [he] at hmatch
      simp at hmatch
    · rw [he] at hmatch
      split at hmatch
      · simp at hmatch
      · rename_i e2 heq
        injection heq with hee
        split at hmatch
        · rename_i hcond
          injection hmatch with hrow
          have hlike := (Bool.and_eq_true _ _).mp hcond |>.1
          rw [likeMatch_no_meta _ hmeta] at hlike
          rw [← hrow]
          exact hlike
        · simp at hmatch

/-- Witness for C8 (amended): the metacharacter-free query " BO"
normalises to a literal prefix of the matched identifier. -/
theorem C8_prefix_match_witness :
    (sqlNormalize ((some " BO").getD "")).data.isPrefixOf
      (sqlLower (SearchRow.mk 2 "bob@x.com").email).data = true :=
  C8_prefix_match 1 (some " BO") [alice, bob] [⟨2, "bob@x.com"⟩] ⟨2, "bob@x.com"⟩
    (by decide) (by decide) (by decide)

/-- C9: for an authenticated caller the search result never contains the
caller's own user id, has at most 10 rows, and is sorted ascending by
identifier. -/
theorem C9_search_result_shape (me : Nat) (q : Option String) (users : List AuthUser)
    (out : List SearchRow)
    (hok : react_search_users_by_email (some me) q users = Except.ok out) :
    (∀ row ∈ out, row.user_id ≠ me) ∧ out.length ≤ 10 ∧
      out.Pairwise searchRowLe := by
  simp only [react_search_users_by_email] at hok
  split at hok
  · injection hok with hout
    rw [← hout]
    simp
  · injection hok with hout
    rw [← hout]
    refine ⟨?_, List.length_take_le _ _,
      List.Pairwise.sublist (List.take_sublist _ _)
        (List.sorted_insertionSort searchRowLe _)⟩
    intro row hrow
    have h1 := List.mem_of_mem_take hrow
    rw [List.mem_insertionSort] at h1
    simp only [List.mem_filterMap] at h1
    obtain ⟨u, hu, hmatch⟩ := h1
    rcases he : u.email with _ | e
    · rw [he] at hmatch
      simp at hmatch
    · rw [he] at hmatch
      split at hmatch
      · simp at hmatch
      · rename_i e2 heq
        split at hmatch
        · rename_i hcond
          injection hmatch with hrow2
          have hne := (Bool.and_eq_true _ _).mp hcond |>.2
          rw [← hrow2]
          simpa using hne
        · simp at hmatch

/-- Witness for C9. -/
theorem C9_search_result_shape_witness :
    (∀ row ∈ [SearchRow.mk 2 "bob@x.com"], row.user_id ≠ 1) ∧
      [SearchRow.mk 2 "bob@x.com"].length ≤ 10 ∧
      [SearchRow.mk 2 "bob@x.com"].Pairwise searchRowLe :=
  C9_search_result_shape 1 (some " BO") [alice, bob] [⟨2, "bob@x.com"⟩] (by decide)
